import Mathlib

/-!
Verification of the Ableton rack analyzer core
(`backend/abletonRackAnalyzer.py`) against its natural-language
specification.  The decoder works on an in-memory XML tree produced by
`xml.etree.ElementTree`; we embed that tree shallowly and translate each
Python function of the analyzer into a Lean definition, then prove the
spec's claims about them.
-/

/-- An XML element as exposed by `xml.etree.ElementTree`: a tag, an
attribute dictionary (modelled as an association list, first binding
wins, matching dict semantics for the single-binding documents at hand),
and the ordered list of child elements.  Text content is never consulted
by the analyzer, so it is not modelled. -/
inductive XML where
  | mk (tag : String) (attrs : List (String × String)) (children : List XML)

/-- Tag of an element (`elem.tag`). -/
def XML.tag : XML → String
  | .mk t _ _ => t

/-- Attribute list of an element. -/
def XML.attrs : XML → List (String × String)
  | .mk _ a _ => a

/-- Child list of an element (iteration order). -/
def XML.children : XML → List XML
  | .mk _ _ c => c

/-- `elem.get(key)`: attribute lookup, `None` when absent. -/
def XML.get (e : XML) (k : String) : Option String :=
  e.attrs.lookup k

/-- `elem.find(tag)` for a plain tag token: first direct child with the
given tag, in document order.  (ElementTree's path tokenizer treats a
dot inside a tag name such as `MacroDisplayNames.0` as part of the tag,
so the analyzer's dotted lookups are plain child-tag searches.) -/
def findChild (e : XML) (t : String) : Option XML :=
  e.children.find? (fun c => c.tag == t)

/-- `elem.findall(tag)` for a plain tag token: all direct children with
the given tag, in document order. -/
def childrenTagged (e : XML) (t : String) : List XML :=
  e.children.filter (fun c => c.tag == t)

/-- `elem.find("A/B")`: for each direct child tagged `A` in order, its
children tagged `B` in order; first match overall. -/
def findChildPath (e : XML) (t1 t2 : String) : Option XML :=
  (((childrenTagged e t1).map (fun c => childrenTagged c t2)).flatten).head?

mutual
/-- All strict descendants of an element in document (pre-)order, the
order in which `elem.iter()` visits them (minus the element itself) —
the search space of ElementTree's `.//` axis. -/
def descendants : XML → List XML
  | .mk _ _ cs => descendantsL cs

/-- Descendants-or-self of a list of sibling elements, in document order. -/
def descendantsL : List XML → List XML
  | [] => []
  | c :: cs => c :: (descendants c ++ descendantsL cs)
end

/-- `elem.find(".//T")`: first strict descendant with tag `T` in
document order. -/
def findDesc (e : XML) (t : String) : Option XML :=
  (descendants e).find? (fun c => c.tag == t)

/-- `elem.find(".//A/B")`: ElementTree iterates the descendants tagged
`A` in document order and yields each one's children tagged `B`; the
first element yielded is returned. -/
def findDescChildPath (e : XML) (t1 t2 : String) : Option XML :=
  ((((descendants e).filter (fun c => c.tag == t1)).map
      (fun c => childrenTagged c t2)).flatten).head?

/-! ### Python string and number helpers used by the analyzer -/

/-- Whitespace characters stripped by Python `float()` before parsing. -/
def isPyWs (c : Char) : Bool :=
  c = ' ' ∨ c = '\t' ∨ c = '\n' ∨ c = '\r' ∨ c = '\x0b' ∨ c = '\x0c'

/-- Strip leading and trailing whitespace from a character list. -/
def pyStrip (cs : List Char) : List Char :=
  ((cs.dropWhile isPyWs).reverse.dropWhile isPyWs).reverse

/-- Consume a maximal run of decimal digits, returning the accumulated
value, the number of digits consumed, and the rest of the input. -/
def takeDigits : List Char → Nat → Nat → Nat × Nat × List Char
  | [], v, n => (v, n, [])
  | c :: cs, v, n =>
    if c.isDigit then takeDigits cs (v * 10 + (c.toNat - 48)) (n + 1)
    else (v, n, c :: cs)

/-- Consume an optional sign, returning whether it was a minus. -/
def takeSign : List Char → Bool × List Char
  | '+' :: cs => (false, cs)
  | '-' :: cs => (true, cs)
  | cs => (false, cs)

/-- Result of Python `float()`.  The analyzer's claims only ever compare
values with `0.0`, so finite values are modelled as exact rationals (the
IEEE-754 rounding that `float()` additionally performs never moves a
parse between "fails", "zero" and "non-zero" and is immaterial here);
the non-finite results keep their own constructors. -/
inductive PyFloat where
  | num (q : Rat)
  | infty (neg : Bool)
  | nan
deriving DecidableEq, Repr

/-- Assemble a finite `float()` result from sign, integer digits,
fraction digits (with their count) and a signed decimal exponent. -/
def mkPyNum (neg : Bool) (ip fp fc ev : Nat) (eneg : Bool) : Rat :=
  let m : Int := (if neg then -1 else 1) * (ip * 10 ^ fc + fp)
  let base : Rat := (m : Rat) / ((10 ^ fc : Nat) : Rat)
  if eneg then base / ((10 ^ ev : Nat) : Rat) else base * ((10 ^ ev : Nat) : Rat)

/-- Python `float(s)`: strip whitespace, optional sign, then either an
infinity/nan keyword (case-insensitive) or a decimal literal with
optional fraction and exponent; anything else raises `ValueError`,
modelled as `none`.  (Underscore digit grouping, accepted by CPython
between digits, is not modelled; no claim concerns it.) -/
def pythonFloat (s : String) : Option PyFloat :=
  let cs := pyStrip s.toList
  let (neg, cs1) := takeSign cs
  let low := cs1.map Char.toLower
  if low = ['i', 'n', 'f'] ∨ low = ['i', 'n', 'f', 'i', 'n', 'i', 't', 'y'] then
    some (.infty neg)
  else if low = ['n', 'a', 'n'] then some .nan
  else
    let (ip, ic, rest1) := takeDigits cs1 0 0
    let (fp, fc, rest2) :=
      match rest1 with
      | '.' :: r => takeDigits r 0 0
      | _ => (0, 0, rest1)
    if ic = 0 ∧ fc = 0 then none
    else
      match rest2 with
      | [] => some (.num (mkPyNum neg ip fp fc 0 false))
      | c :: r =>
        if c = 'e' ∨ c = 'E' then
          let (eneg, r1) := takeSign r
          let (ev, en, r2) := takeDigits r1 0 0
          if en = 0 ∨ r2 ≠ [] then none
          else some (.num (mkPyNum neg ip fp fc ev eneg))
        else none

/-- `os.path.basename` on a POSIX path: everything after the last slash
(`p[p.rfind('/') + 1 :]`). -/
def basename (p : String) : String :=
  String.mk ((p.toList.reverse.takeWhile (fun c => c ≠ '/')).reverse)

/-- The root part of `os.path.splitext` applied to a path without
separators (the analyzer always applies it to a `basename`): drop the
suffix starting at the last dot, unless every character before that dot
is itself a dot (so dotfiles such as `.bashrc` keep their name). -/
def splitextRoot (s : String) : String :=
  let cs := s.toList
  match (cs.reverse.findIdx? (fun c => c = '.')) with
  | none => s
  | some ridx =>
    let d := cs.length - 1 - ridx
    if (cs.take d).any (fun c => c ≠ '.') then String.mk (cs.take d) else s

/-- Python `str.lower` (ASCII range; every name the analyzer compares
case-insensitively is drawn from its ASCII device-name table). -/
def pyLower (s : String) : String := String.mk (s.toList.map Char.toLower)

/-! ### The static device-type table of `parse_device` -/

/-- The `device_type_map` dict literal of `parse_device`, verbatim.  It
is modelled as an association list queried with first-match lookup; the
source dict literal binds `VectorGrain` twice with the same value, so
first-match and last-match agree on every key. -/
def deviceTypeMap : List (String × String) := [
  ("AlignDelay", "Align Delay"),
  ("Amp", "Amp"),
  ("AudioEffectGroupDevice", "Audio Effect Rack"),
  ("AutoFilter", "Auto Filter"),
  ("AutoPan", "Auto Pan"),
  ("AutoShift", "Auto Shift"),
  ("BeatRepeat", "Beat Repeat"),
  ("Cabinet", "Cabinet"),
  ("ChannelEq", "Channel EQ"),
  ("Chorus", "Chorus-Ensemble"),
  ("ChromaticChorus", "Chorus-Ensemble"),
  ("Compressor2", "Compressor"),
  ("Corpus", "Corpus"),
  ("Delay", "Delay"),
  ("DrumBuss", "Drum Buss"),
  ("DynamicTube", "Dynamic Tube"),
  ("Tube", "Dynamic Tube"),
  ("Echo", "Echo"),
  ("EnvelopeFollower", "Envelope Follower"),
  ("FilterEQ3", "EQ Three"),
  ("Eq3", "EQ Three"),
  ("Eq8", "EQ Eight"),
  ("Erosion", "Erosion"),
  ("ExternalAudioEffect", "External Audio Effect"),
  ("FilterDelay", "Filter Delay"),
  ("Gate", "Gate"),
  ("GlueCompressor", "Glue Compressor"),
  ("GrainDelay", "Grain Delay"),
  ("HybridReverb", "Hybrid Reverb"),
  ("LFO", "LFO"),
  ("Limiter", "Limiter"),
  ("Looper", "Looper"),
  ("MultibandDynamics", "Multiband Dynamics"),
  ("Overdrive", "Overdrive"),
  ("Pedal", "Pedal"),
  ("Phaser", "Phaser"),
  ("PhaserFlanger", "Phaser-Flanger"),
  ("Flanger", "Flanger"),
  ("Redux", "Redux"),
  ("Resonators", "Resonators"),
  ("Reverb", "Reverb"),
  ("Roar", "Roar"),
  ("Saturator", "Saturator"),
  ("Shaper", "Shaper"),
  ("Shifter", "Shifter"),
  ("FrequencyShifter", "Frequency Shifter"),
  ("Frequency", "Frequency Shifter"),
  ("SpectralResonator", "Spectral Resonator"),
  ("SpectralTime", "Spectral Time"),
  ("Spectrum", "Spectrum"),
  ("Tuner", "Tuner"),
  ("Utility", "Utility"),
  ("VinylDistortion", "Vinyl Distortion"),
  ("Vocoder", "Vocoder"),
  ("ConvolutionReverb", "Convolution Reverb"),
  ("ConvolutionReverbPro", "Convolution Reverb Pro"),
  ("InMeasurementDevice", "IR Measurement Device"),
  ("ColorLimiter", "Color Limiter"),
  ("GatedDelay", "Gated Delay"),
  ("PitchHack", "Pitch Hack"),
  ("ReEnveloper", "Re-Enveloper"),
  ("SpectralBlur", "Spectral Blur"),
  ("VectorDelay", "Vector Delay"),
  ("VectorFade", "Vector Fade"),
  ("ArrangementLooper", "Arrangement Looper"),
  ("Performer", "Performer"),
  ("Prearranger", "Prearranger"),
  ("VectorGrain", "Vector Grain"),
  ("SurroundPanner", "Surround Panner"),
  ("AnalogDevice", "Analog"),
  ("Collision", "Collision"),
  ("DrumRack", "Drum Rack"),
  ("InstrumentRack", "Instrument Rack"),
  ("Electric", "Electric"),
  ("ExternalInstrument", "External Instrument"),
  ("GranulatorIII", "Granulator III"),
  ("InstrumentImpulse", "Impulse"),
  ("Meld", "Meld"),
  ("Operator", "Operator"),
  ("Poli", "Poli"),
  ("Sampler", "Sampler"),
  ("Simpler", "Simpler"),
  ("Tension", "Tension"),
  ("Wavetable", "Wavetable"),
  ("Bass", "Bass"),
  ("Drift", "Drift"),
  ("DrumSampler", "Drum Sampler"),
  ("DSClang", "DS Clang"),
  ("DSClap", "DS Clap"),
  ("DSCymbal", "DS Cymbal"),
  ("DSFM", "DS FM"),
  ("DSHH", "DS HH"),
  ("DSKick", "DS Kick"),
  ("DSSnare", "DS Snare"),
  ("DSTom", "DS Tom"),
  ("InstrumentGroupDevice", "Instrument Rack"),
  ("MidiEffectGroupDevice", "MIDI Effect Rack"),
  ("DrumGroupDevice", "Drum Rack"),
  ("Treee", "Tree Tone"),
  ("VectorFM", "Vector FM"),
  ("VectorGrain", "Vector Grain"),
  ("Arpeggiator", "Arpeggiator"),
  ("BouncyNotes", "Bouncy Notes"),
  ("CCControl", "CC Control"),
  ("Chord", "Chord"),
  ("EnvelopeMidi", "Envelope MIDI"),
  ("ExpressionControl", "Expression Control"),
  ("ExpressiveChords", "Expressive Chords"),
  ("MelodicSteps", "Melodic Steps"),
  ("Microtuner", "Microtuner"),
  ("MidiEffectRack", "MIDI Effect Rack"),
  ("MidiMonitor", "MIDI Monitor"),
  ("MPEControl", "MPE Control"),
  ("NoteEcho", "Note Echo"),
  ("NoteLength", "Note Length"),
  ("Pitch", "Pitch"),
  ("Random", "Random"),
  ("RhythmicSteps", "Rhythmic Steps"),
  ("Scale", "Scale"),
  ("ShaperMidi", "Shaper MIDI"),
  ("StepSequencer", "SQ Sequencer"),
  ("StepArp", "Step Arp"),
  ("Velocity", "Velocity")]

/-! ### The result data model

The analyzer builds plain Python dicts; we model each dict shape as a
record.  A key that the source only ever creates via
`setdefault(...).append(...)` (the diagnostics lists) is always a
non-empty list when present, so key absence is modelled as the empty
list.  `Device.chains` key absence, which the spec distinguishes from an
empty list, is modelled with `Option`. -/

/-- One entry of `rack_info["macro_controls"]`. -/
structure MacroControl where
  name : String
  value : PyFloat
  index : Nat
deriving DecidableEq, Repr

mutual
/-- One entry of a chain's `devices` list (`device_info` in
`parse_device`): raw type tag, display name, optional preset name,
enabled flag, and — only when the key was assigned — nested chains. -/
inductive Device where
  | mk (type : String) (name : String) (preset_name : Option String)
       (is_on : Bool) (chains : Option (List Chain))

/-- One entry of `rack_info["chains"]` (`chain_info` in
`parse_single_chain_branch`). -/
inductive Chain where
  | mk (name : String) (is_soloed : Bool) (devices : List Device)
end

/-- Raw type tag of a parsed device. -/
def Device.type : Device → String
  | .mk t _ _ _ _ => t

/-- Display name of a parsed device. -/
def Device.name : Device → String
  | .mk _ n _ _ _ => n

/-- Preset name of a parsed device (`none` = key absent). -/
def Device.preset_name : Device → Option String
  | .mk _ _ p _ _ => p

/-- Enabled flag of a parsed device. -/
def Device.is_on : Device → Bool
  | .mk _ _ _ o _ => o

/-- Nested chains of a parsed device (`none` = key absent). -/
def Device.chains : Device → Option (List Chain)
  | .mk _ _ _ _ c => c

/-- Name of a parsed chain. -/
def Chain.name : Chain → String
  | .mk n _ _ => n

/-- Solo flag of a parsed chain. -/
def Chain.is_soloed : Chain → Bool
  | .mk _ s _ => s

/-- Devices of a parsed chain. -/
def Chain.devices : Chain → List Device
  | .mk _ _ d => d

/-- The `rack_info` dict returned by `parse_chains_and_devices`. -/
structure RackInfo where
  rack_name : String
  use_case : String
  macro_controls : List MacroControl
  chains : List Chain
  rack_type : Option String
  parsing_errors : List String
  parsing_warnings : List String

/-! ### The analyzer functions -/

/-- Classification of a raw input byte buffer, abstracting the gzip and
XML layers that `decompress_and_parse_ableton_file` delegates to the
`gzip` and `ElementTree` libraries: the bytes either are not valid gzip,
or decompress to bytes that are not well-formed XML, or decompress to a
well-formed document with the given root element. -/
inductive FileContents where
  | notGzip
  | gzipMalformedXml
  | gzipXml (root : XML)

/-- `decompress_and_parse_ableton_file`: returns the parsed root
element; its catch-all `except` turns every gzip/XML failure into a
printed message and a `None` return, so the caller receives no document
and no exception. -/
def decompress_and_parse_ableton_file : FileContents → Option XML
  | .gzipXml root => some root
  | _ => none

/-- The three recognized rack categories, in the order the source lists
them. -/
def rackTypes : List String :=
  ["AudioEffectGroupDevice", "InstrumentGroupDevice", "MidiEffectGroupDevice"]

/-- The fallback loop of `detect_rack_type_and_device`: try
`find(".//T")` for each of the three category tags in order. -/
def detectFallback (xml_root : XML) : Option String × Option XML :=
  match findDesc xml_root "AudioEffectGroupDevice" with
  | some d => (some "AudioEffectGroupDevice", some d)
  | none =>
    match findDesc xml_root "InstrumentGroupDevice" with
    | some d => (some "InstrumentGroupDevice", some d)
    | none =>
      match findDesc xml_root "MidiEffectGroupDevice" with
      | some d => (some "MidiEffectGroupDevice", some d)
      | none => (none, none)

/-- `detect_rack_type_and_device`: primary path
`.//GroupDevicePreset` → child `Device` → first child whose tag is a
category tag; on any miss, fall through to the three `.//` searches. -/
def detect_rack_type_and_device (xml_root : XML) : Option String × Option XML :=
  match findDesc xml_root "GroupDevicePreset" with
  | some group_preset =>
    match findChild group_preset "Device" with
    | some device_container =>
      match device_container.children.find? (fun c => decide (c.tag ∈ rackTypes)) with
      | some child => (some child.tag, some child)
      | none => detectFallback xml_root
    | none => detectFallback xml_root
  | none => detectFallback xml_root

/-- `get_branch_preset_type`: the category → branch-preset-tag map. -/
def get_branch_preset_type (rack_type : String) : Option String :=
  if rack_type = "AudioEffectGroupDevice" then some "AudioEffectBranchPreset"
  else if rack_type = "InstrumentGroupDevice" then some "InstrumentBranchPreset"
  else if rack_type = "MidiEffectGroupDevice" then some "MidiEffectBranchPreset"
  else none

/-- The custom-name extraction at the top of `parse_device`:
`custom_name` is set iff a `UserName` child exists and its `Value`
attribute is present and truthy (non-empty). -/
def customNameOf (device_elem : XML) : Option String :=
  match findChild device_elem "UserName" with
  | some user_name =>
    match user_name.get "Value" with
    | some v => if v = "" then none else some v
    | none => none
  | none => none

/-- The Python message of the `RecursionError` that CPython raises when
its call-stack limit is exceeded; it is the only exception any of the
chain/device recursion can raise on an in-memory `Element` tree. -/
def recursionErrorMsg : String := "maximum recursion depth exceeded"

/-- CPython's default `sys.getrecursionlimit()`; the analyzer never
changes it.  The mutual recursion below threads an explicit fuel value
starting here, and exactly the two Python functions on the recursive
cycle — `parse_single_chain_branch` and `parse_device` — consume one
unit on entry, matching the two interpreter stack frames each nesting
level of a rack document costs (the `for` loops and the C-implemented
`find`/`findall` add no Python frames).  Fuel exhaustion models the
`RecursionError` the real interpreter raises on deeply nested rack
documents. -/
def recursion_limit : Nat := 1000

/-- The `for child in device` loop of `parse_single_chain_branch`: each
child is decoded by the device decoder with the wrapping preset as
parent and appended (`device_info` is a non-empty dict, hence always
truthy); the loop itself costs no interpreter frame. -/
def parseDeviceChildren (pd : XML → Option XML → Except String Device) :
    List XML → XML → Except String (List Device)
  | [], _ => .ok []
  | child :: rest, device_preset =>
    match pd child (some device_preset) with
    | .error e => .error e
    | .ok d =>
      match parseDeviceChildren pd rest device_preset with
      | .error e => .error e
      | .ok ds => .ok (d :: ds)

/-- The `for device_preset in device_presets` loop of
`parse_single_chain_branch`, parameterized by the device decoder to
invoke: a plain loop, costing no interpreter frame; an exception from a
device decode propagates. -/
def parseDevicePresets (pd : XML → Option XML → Except String Device) :
    List XML → Except String (List Device)
  | [] => .ok []
  | device_preset :: rest =>
    match
      (match findChild device_preset "Device" with
       | some device => parseDeviceChildren pd device.children device_preset
       | none => .ok []) with
    | .error e => .error e
    | .ok ds1 =>
      match parseDevicePresets pd rest with
      | .error e => .error e
      | .ok ds2 => .ok (ds1 ++ ds2)

/-- The nested-chain loop at the end of `parse_device`, parameterized
by the chain decoder to invoke: decode each branch preset in order
(`chain_info` is a non-empty dict, hence always truthy and always
appended); the loop costs no interpreter frame, and an exception
propagates. -/
def parseBranchList (pc : XML → Nat → Except String Chain) :
    List XML → Nat → Except String (List Chain)
  | [], _ => .ok []
  | branch_preset :: rest, idx =>
    match pc branch_preset idx with
    | .error e => .error e
    | .ok c =>
      match parseBranchList pc rest (idx + 1) with
      | .error e => .error e
      | .ok cs => .ok (c :: cs)

/-- Body of `parse_single_chain_branch`, abstracted over the device
decoder it calls (the interpreter frame the call itself costs is
charged by `parseLevel`): name (defaulted from the 1-based chain
index), solo flag, and the decoded devices of every `Device` wrapper
child of `DevicePresets`. -/
def parse_single_chain_branch_body (pd : XML → Option XML → Except String Device)
    (branch_preset : XML) (chain_index : Nat) : Except String Chain :=
  let dfl := "Chain " ++ toString (chain_index + 1)
  let name :=
    match findChild branch_preset "Name" with
    | some name_elem =>
      let v := (name_elem.get "Value").getD ""
      if v ≠ "" then v else dfl
    | none => dfl
  let is_soloed :=
    match findChild branch_preset "IsSoloed" with
    | some solo_elem => solo_elem.get "Value" == some "true"
    | none => false
  match
    (match findChild branch_preset "DevicePresets" with
     | some device_presets => parseDevicePresets pd device_presets.children
     | none => .ok []) with
  | .error e => .error e
  | .ok ds => .ok (Chain.mk name is_soloed ds)

/-- Body of `parse_device`, abstracted over the chain decoder it calls:
display name from the custom name or the static table (raw tag
fallback), optional `preset_name`, `On/Manual` enabled flag, and —
exactly when the tag is `AudioEffectGroupDevice` and a parent preset
was passed — a `chains` key holding the chains decoded from the
`AudioEffectBranchPreset` elements of the parent preset's
`BranchPresets` sibling (empty when the parent is not a
`GroupDevicePreset` or has no `BranchPresets`). -/
def parse_device_body (pc : XML → Nat → Except String Chain)
    (device_elem : XML) (parent_preset : Option XML) : Except String Device :=
  let device_type := device_elem.tag
  let custom_name := customNameOf device_elem
  let name :=
    match custom_name with
    | some c => c
    | none => (deviceTypeMap.lookup device_type).getD device_type
  let pname :=
    match custom_name with
    | some c =>
      let original := (deviceTypeMap.lookup device_type).getD device_type
      if pyLower original ≠ pyLower c then some original else none
    | none => none
  let is_on :=
    match findChildPath device_elem "On" "Manual" with
    | some on_elem => on_elem.get "Value" == some "true"
    | none => true
  match parent_preset with
  | some pp =>
    if device_type = "AudioEffectGroupDevice" then
      if pp.tag = "GroupDevicePreset" then
        match findChild pp "BranchPresets" with
        | some branch_presets =>
          match parseBranchList pc
              (childrenTagged branch_presets "AudioEffectBranchPreset") 0 with
          | .error e => .error e
          | .ok cs => .ok (Device.mk device_type name pname is_on (some cs))
        | none => .ok (Device.mk device_type name pname is_on (some []))
      else .ok (Device.mk device_type name pname is_on (some []))
    else .ok (Device.mk device_type name pname is_on none)
  | none => .ok (Device.mk device_type name pname is_on none)

/-- The mutually recursive pair `parse_single_chain_branch` /
`parse_device`, staged by the remaining interpreter stack budget: at
budget 0 any call raises `RecursionError`; at budget `fuel + 1` each
function runs its body, handing the callee the remaining budget
`fuel` — exactly one frame consumed per Python function entry, two per
nesting level of a rack document. -/
def parseLevel : Nat →
    (XML → Nat → Except String Chain) × (XML → Option XML → Except String Device)
  | 0 => (fun _ _ => .error recursionErrorMsg, fun _ _ => .error recursionErrorMsg)
  | fuel + 1 =>
    (parse_single_chain_branch_body (parseLevel fuel).2,
     parse_device_body (parseLevel fuel).1)

/-- `parse_single_chain_branch` with the given remaining stack budget. -/
def parse_single_chain_branch (fuel : Nat) (branch_preset : XML)
    (chain_index : Nat) : Except String Chain :=
  (parseLevel fuel).1 branch_preset chain_index

/-- `parse_device` with the given remaining stack budget. -/
def parse_device (fuel : Nat) (device_elem : XML)
    (parent_preset : Option XML) : Except String Device :=
  (parseLevel fuel).2 device_elem parent_preset

/-- The in-file display name the macro loop reads for index `i`:
`find(f"MacroDisplayNames.{i}")`, defaulting the `Value` attribute to
the synthesized `"Macro {i+1}"`; `none` when the element is absent. -/
def macroDisplayName (main_device : XML) (i : Nat) : Option String :=
  (findChild main_device ("MacroDisplayNames." ++ toString i)).map
    (fun el => (el.get "Value").getD ("Macro " ++ toString (i + 1)))

/-- One iteration of the macro loop of `parse_chains_and_devices`:
skip an absent display-name element, skip a default name, otherwise
read `MacroControls.{i}/Manual` and convert its `Value` (default `"0"`)
with `float()`, whose `ValueError` — modelled as `.error` — escapes the
whole call since the loop has no handler; an absent `Manual` element
yields the literal `0.0`. -/
def parseMacroAt (main_device : XML) (i : Nat) : Except String (Option MacroControl) :=
  match macroDisplayName main_device i with
  | none => .ok none
  | some macro_name =>
    if macro_name ≠ "Macro " ++ toString (i + 1) then
      match findChildPath main_device ("MacroControls." ++ toString i) "Manual" with
      | some macro_control_elem =>
        let s := (macro_control_elem.get "Value").getD "0"
        match pythonFloat s with
        | some v => .ok (some (MacroControl.mk macro_name v i))
        | none => .error ("could not convert string to float: " ++ s)
      | none => .ok (some (MacroControl.mk macro_name (PyFloat.num 0) i))
    else .ok none

/-- The `for i in range(16)` macro loop, over an explicit index list:
named macros are appended in index order; a `float()` failure aborts. -/
def parseMacroList (main_device : XML) : List Nat → Except String (List MacroControl)
  | [] => .ok []
  | i :: is =>
    match parseMacroAt main_device i with
    | .error e => .error e
    | .ok none => parseMacroList main_device is
    | .ok (some m) =>
      match parseMacroList main_device is with
      | .error e => .error e
      | .ok ms => .ok (m :: ms)

/-- The `for idx, branch_preset in enumerate(branches)` loop of
`parse_chains_and_devices` with its `try/except`: a successfully decoded
chain is appended to `chains` (the dict is always truthy, so the
"Failed to parse chain" warning branch is dead code); an exception is
caught and recorded as `"Error parsing chain {idx+1}: ..."`, and the
loop continues — the failed chain itself is discarded.  Each top-level
chain decode starts from the full recursion budget, as each loop
iteration re-enters the recursion from the same stack depth. -/
def walkBranches : List XML → Nat → List Chain × List String
  | [], _ => ([], [])
  | branch_preset :: rest, idx =>
    let (cs, es) := walkBranches rest (idx + 1)
    match parse_single_chain_branch recursion_limit branch_preset idx with
    | .ok c => (c :: cs, es)
    | .error e =>
      (cs, ("Error parsing chain " ++ toString (idx + 1) ++ ": " ++ e) :: es)

/-- The rack-name derivation of `parse_chains_and_devices`:
`os.path.splitext(os.path.basename(filename))[0] if filename else
"Unknown"` — a `None` or empty (falsy) filename yields `"Unknown"`. -/
def rack_name_from_file (filename : Option String) : String :=
  match filename with
  | some f => if f = "" then "Unknown" else splitextRoot (basename f)
  | none => "Unknown"

/-- The error message recorded when no rack category is detected. -/
def unknownRackTypeMsg : String :=
  "Unknown rack type - unable to detect AudioEffectGroupDevice, InstrumentGroupDevice, or MidiEffectGroupDevice"

/-- `parse_chains_and_devices`: derive the rack name from the filename,
detect the category, return early (with an error diagnostic) when the
category or the main device is missing, extract macros, then locate
`.//GroupDevicePreset/BranchPresets` and walk the branch presets of the
category's branch tag.  The only exception that can escape is the macro
loop's `ValueError` (modelled as `.error`); every chain-level failure is
recorded in `parsing_errors` and every structural shortfall in
`parsing_warnings` — except that the missing-`BranchPresets` warning is
only recorded when `verbose` is set, because its `append` sits inside
the `if branch_presets is None and verbose:` block. -/
def parse_chains_and_devices (xml_root : XML) (filename : Option String)
    (verbose : Bool) : Except String RackInfo :=
  let rname := rack_name_from_file filename
  match detect_rack_type_and_device xml_root with
  | (none, _) =>
    .ok (RackInfo.mk rname rname [] [] none [unknownRackTypeMsg] [])
  | (some rack_type, none) =>
    .ok (RackInfo.mk rname rname [] [] (some rack_type)
      ["Found rack type " ++ rack_type ++ " but could not locate main device element"] [])
  | (some rack_type, some main_device) =>
    match parseMacroList main_device (List.range 16) with
    | .error e => .error e
    | .ok mcs =>
      match findDescChildPath xml_root "GroupDevicePreset" "BranchPresets" with
      | some branch_presets =>
        match get_branch_preset_type rack_type with
        | some branch_preset_type =>
          let branches := childrenTagged branch_presets branch_preset_type
          let warns :=
            if branches.length = 0 then
              ["No chains found - expected " ++ branch_preset_type ++ " elements"]
            else []
          let (cs, errs) := walkBranches branches 0
          .ok (RackInfo.mk rname rname mcs cs (some rack_type) errs warns)
        | none =>
          .ok (RackInfo.mk rname rname mcs [] (some rack_type)
            ["Unknown branch preset type for rack type " ++ rack_type] [])
      | none =>
        .ok (RackInfo.mk rname rname mcs [] (some rack_type) []
          (if verbose then
            ["No BranchPresets element found - rack may not contain chains"]
          else []))

/-! ### Concrete documents used by witnesses and counterexamples -/

/-- A concrete tree with no category tag anywhere. -/
def noRackTagDoc : XML :=
  XML.mk "Ableton" [] [XML.mk "GroupDevicePreset" [] [XML.mk "Foo" [] []]]

/-- A concrete rack document (category detected, zero branches). -/
def emptyRackDoc : XML :=
  XML.mk "Ableton" [] [
    XML.mk "GroupDevicePreset" [] [
      XML.mk "Device" [] [XML.mk "AudioEffectGroupDevice" [] []],
      XML.mk "BranchPresets" [] []]]

/-- A concrete device subtree with a custom user name differing from the
table resolution of its tag. -/
def namedReverbDev : XML :=
  XML.mk "Reverb" [] [XML.mk "UserName" [("Value", "Big Hall")] []]

/-- A chain branch holding a nested instrument rack: a
`GroupDevicePreset` device preset whose `Device` wraps an
`InstrumentGroupDevice` and whose sibling `BranchPresets` holds one
`InstrumentBranchPreset`. -/
def instChainBranch : XML :=
  XML.mk "InstrumentBranchPreset" [] [
    XML.mk "DevicePresets" [] [
      XML.mk "GroupDevicePreset" [] [
        XML.mk "Device" [] [XML.mk "InstrumentGroupDevice" [] []],
        XML.mk "BranchPresets" [] [
          XML.mk "InstrumentBranchPreset" [] [
            XML.mk "DevicePresets" [] []]]]]]

/-- The audio-rack analogue of `instChainBranch`. -/
def audioChainBranch : XML :=
  XML.mk "AudioEffectBranchPreset" [] [
    XML.mk "DevicePresets" [] [
      XML.mk "GroupDevicePreset" [] [
        XML.mk "Device" [] [XML.mk "AudioEffectGroupDevice" [] []],
        XML.mk "BranchPresets" [] [
          XML.mk "AudioEffectBranchPreset" [] [
            XML.mk "DevicePresets" [] []]]]]]

/-- An audio-rack `GroupDevicePreset` nested to the given depth: each
level wraps the next inside its single branch's `DevicePresets`. -/
def deepPreset : Nat → XML
  | 0 => XML.mk "GroupDevicePreset" [] [
      XML.mk "Device" [] [XML.mk "AudioEffectGroupDevice" [] []]]
  | n + 1 => XML.mk "GroupDevicePreset" [] [
      XML.mk "Device" [] [XML.mk "AudioEffectGroupDevice" [] []],
      XML.mk "BranchPresets" [] [
        XML.mk "AudioEffectBranchPreset" [] [
          XML.mk "DevicePresets" [] [deepPreset n]]]]

/-- A chain branch holding `deepPreset n` as its single device preset. -/
def deepBranchOf (n : Nat) : XML :=
  XML.mk "AudioEffectBranchPreset" [] [
    XML.mk "DevicePresets" [] [deepPreset n]]

/-- A chain branch whose device nesting is deep enough to exhaust the
interpreter's recursion limit while it is being decoded: at two frames
per nesting level, depth 600 overruns the 1000-frame budget both in the
model (which trips at 500 levels) and in the real interpreter (which
has a few dozen frames of the surrounding program already on the stack
and so trips slightly earlier). -/
def deepBranch : XML := deepBranchOf 600

/-- A trivial named chain branch with no devices. -/
def plainBranch (nm : String) : XML :=
  XML.mk "AudioEffectBranchPreset" [] [XML.mk "Name" [("Value", nm)] []]

/-- A rack document with three chains whose middle chain's decode blows
the recursion limit. -/
def threeChainDoc : XML :=
  XML.mk "Ableton" [] [
    XML.mk "GroupDevicePreset" [] [
      XML.mk "Device" [] [XML.mk "AudioEffectGroupDevice" [] []],
      XML.mk "BranchPresets" [] [plainBranch "A", deepBranch, plainBranch "C"]]]

/-- The main device of `threeChainDoc` as the detector returns it. -/
def threeChainMainDevice : XML := XML.mk "AudioEffectGroupDevice" [] []

/-- A rack document with a detected category but no `BranchPresets`
element anywhere. -/
def noBranchPresetsDoc : XML :=
  XML.mk "Ableton" [] [
    XML.mk "GroupDevicePreset" [] [
      XML.mk "Device" [] [XML.mk "AudioEffectGroupDevice" [] []]]]

/-- A main device whose macro 0 is named but has an unparsable stored
value. -/
def badMacroValueDevice : XML :=
  XML.mk "AudioEffectGroupDevice" [] [
    XML.mk "MacroDisplayNames.0" [("Value", "Knob")] [],
    XML.mk "MacroControls.0" [] [XML.mk "Manual" [("Value", "abc")] []]]

/-- A rack document whose macro extraction hits the unparsable value of
`badMacroValueDevice`. -/
def badMacroValueDoc : XML :=
  XML.mk "Ableton" [] [
    XML.mk "GroupDevicePreset" [] [
      XML.mk "Device" [] [badMacroValueDevice],
      XML.mk "BranchPresets" [] []]]

/-- A main device whose macro 2 is named but stores the unparsable value
string `xyz`, and whose macro 1 is named with no value node at all. -/
def mixedMacroDevice : XML :=
  XML.mk "AudioEffectGroupDevice" [] [
    XML.mk "MacroDisplayNames.1" [("Value", "Depth")] [],
    XML.mk "MacroDisplayNames.2" [("Value", "Rate")] [],
    XML.mk "MacroControls.2" [] [XML.mk "Manual" [("Value", "xyz")] []]]

/-- A rack document built around `mixedMacroDevice`. -/
def mixedMacroDoc : XML :=
  XML.mk "Ableton" [] [
    XML.mk "GroupDevicePreset" [] [
      XML.mk "Device" [] [mixedMacroDevice],
      XML.mk "BranchPresets" [] []]]

/-- A main device exercising the macro filter: index 0 carries the
synthesized default name, indices 1 and 3 real names (with no value
nodes, so both controls take the literal `0.0` default). -/
def macroSampleDevice : XML :=
  XML.mk "AudioEffectGroupDevice" [] [
    XML.mk "MacroDisplayNames.0" [("Value", "Macro 1")] [],
    XML.mk "MacroDisplayNames.1" [("Value", "Cutoff")] [],
    XML.mk "MacroDisplayNames.3" [("Value", "Mix")] []]

/-- A rack document built around `macroSampleDevice` with one empty
branch. -/
def macroSampleDoc : XML :=
  XML.mk "Ableton" [] [
    XML.mk "GroupDevicePreset" [] [
      XML.mk "Device" [] [macroSampleDevice],
      XML.mk "BranchPresets" [] [plainBranch "A"]]]

/-- The document `parse_chains_and_devices` produces for
`macroSampleDoc`: the default-named macro 0 is filtered out, macros 1
and 3 take the 0.0 default. -/
def macroSampleResult : RackInfo :=
  RackInfo.mk "macros" "macros"
    [MacroControl.mk "Cutoff" (PyFloat.num 0) 1,
     MacroControl.mk "Mix" (PyFloat.num 0) 3]
    [Chain.mk "A" false []] (some "AudioEffectGroupDevice") [] []

/-! ### Structural lemmas about the descendant relation -/

/-- Membership in the descendants of a sibling list decomposes into a
sibling and either equality or strict descent. -/
theorem mem_descendantsL {e : XML} :
    ∀ {cs : List XML}, e ∈ descendantsL cs ↔ ∃ c ∈ cs, e = c ∨ e ∈ descendants c := by
  intro cs
  induction cs with
  | nil => simp [descendantsL]
  | cons c cs ih =>
    simp only [descendantsL, List.mem_cons, List.mem_append, ih]
    constructor
    · rintro (rfl | h | ⟨c', hc', h'⟩)
      · exact ⟨e, Or.inl rfl, Or.inl rfl⟩
      · exact ⟨c, Or.inl rfl, Or.inr h⟩
      · exact ⟨c', Or.inr hc', h'⟩
    · rintro ⟨c', hc' | hc', h'⟩
      · subst hc'
        rcases h' with rfl | h'
        · exact Or.inl rfl
        · exact Or.inr (Or.inl h')
      · exact Or.inr (Or.inr ⟨c', hc', h'⟩)

/-- A child is a descendant. -/
theorem children_mem_descendants {x c : XML} (h : c ∈ x.children) :
    c ∈ descendants x := by
  cases x with
  | mk t a cs =>
    simp only [descendants]
    exact mem_descendantsL.mpr ⟨c, by simpa [XML.children] using h, Or.inl rfl⟩

/-- The descendant relation is transitive. -/
theorem descendants_trans : ∀ (x e c : XML),
    e ∈ descendants x → c ∈ descendants e → c ∈ descendants x
  | .mk t a cs, e, c, he, hc => by
    rcases mem_descendantsL.mp (by simpa [descendants] using he) with ⟨c', hc', h⟩
    rcases h with rfl | h'
    · simpa [descendants] using mem_descendantsL.mpr ⟨e, hc', Or.inr hc⟩
    · have hrec := descendants_trans c' e c h' hc
      simpa [descendants] using mem_descendantsL.mpr ⟨c', hc', Or.inr hrec⟩
termination_by x _ _ _ _ => sizeOf x
decreasing_by
  simp_wf
  have := List.sizeOf_lt_of_mem hc'
  omega

/-- If no descendant bears tag `t`, the `.//t` search fails. -/
theorem findDesc_eq_none_of {root : XML} {t : String}
    (h : ∀ e ∈ descendants root, e.tag ≠ t) : findDesc root t = none := by
  unfold findDesc
  rw [List.find?_eq_none]
  intro e he
  simpa using h e he

/-- A `.//t` hit is a descendant with that tag. -/
theorem findDesc_mem {root e : XML} {t : String} (h : findDesc root t = some e) :
    e ∈ descendants root ∧ e.tag = t := by
  unfold findDesc at h
  refine ⟨List.mem_of_find?_eq_some h, ?_⟩
  have := List.find?_some h
  simpa using this

/-- A `find(tag)` hit is a child with that tag. -/
theorem findChild_mem {x c : XML} {t : String} (h : findChild x t = some c) :
    c ∈ x.children ∧ c.tag = t := by
  unfold findChild at h
  refine ⟨List.mem_of_find?_eq_some h, ?_⟩
  have := List.find?_some h
  simpa using this

/-- If no descendant of the tree bears any of the three category tags,
the detector's primary path and all three fallback searches miss. -/
theorem detect_none_of_no_rack_tags {root : XML}
    (h : ∀ e ∈ descendants root, ¬ e.tag ∈ rackTypes) :
    detect_rack_type_and_device root = (none, none) := by
  have hfb : detectFallback root = (none, none) := by
    unfold detectFallback
    rw [@findDesc_eq_none_of root "AudioEffectGroupDevice"
        (fun e he => by intro ht; exact h e he (by simp [rackTypes, ht])),
      @findDesc_eq_none_of root "InstrumentGroupDevice"
        (fun e he => by intro ht; exact h e he (by simp [rackTypes, ht])),
      @findDesc_eq_none_of root "MidiEffectGroupDevice"
        (fun e he => by intro ht; exact h e he (by simp [rackTypes, ht]))]
  cases hg : findDesc root "GroupDevicePreset" with
  | none => simp only [detect_rack_type_and_device, hg, hfb]
  | some gp =>
    cases hd : findChild gp "Device" with
    | none => simp only [detect_rack_type_and_device, hg, hd, hfb]
    | some dc =>
      have hnone : dc.children.find? (fun c => decide (c.tag ∈ rackTypes)) = none := by
        rw [List.find?_eq_none]
        intro c hc
        have hgp := (findDesc_mem hg).1
        have hdc := children_mem_descendants (findChild_mem hd).1
        have hcd : c ∈ descendants root :=
          descendants_trans root dc c (descendants_trans root gp dc hgp hdc)
            (children_mem_descendants hc)
        simpa using h c hcd
      simp only [detect_rack_type_and_device, hg, hd, hnone, hfb]

/-! ### Claim C10 -/

/-- Claim C10: the category detector always returns both results absent
or both present — for every parsed tree the returned category tag is
non-`None` iff the returned main device node is non-`None`; hence the
"category known but main device missing" branch of
`parse_chains_and_devices` is unreachable. -/
theorem C10_detect_both_or_neither (root : XML) :
    (detect_rack_type_and_device root).1.isSome ↔
      (detect_rack_type_and_device root).2.isSome := by
  unfold detect_rack_type_and_device detectFallback
  repeat' split
  all_goals simp

/-! ### Claim C7 -/

/-- Claim C7: for every valid-gzip, well-formed input whose tree has no
node tagged with any of the three container category tags, a document is
still returned (not an error), with an unknown (`None`) category, an
empty chain sequence, and exactly one error diagnostic (the returned
record's `parsing_errors` is the one-element list `[unknownRackTypeMsg]`
and its `parsing_warnings` is empty). -/
theorem C7_unknown_category_document (root : XML) (filename : Option String)
    (verbose : Bool) (h : ∀ e ∈ descendants root, ¬ e.tag ∈ rackTypes) :
    decompress_and_parse_ableton_file (.gzipXml root) = some root ∧
    parse_chains_and_devices root filename verbose =
      .ok (RackInfo.mk (rack_name_from_file filename) (rack_name_from_file filename)
        [] [] none [unknownRackTypeMsg] []) := by
  refine ⟨rfl, ?_⟩
  have hdet := detect_none_of_no_rack_tags h
  simp only [parse_chains_and_devices, hdet]

/-- Witness for C7 at a concrete document and filename. -/
theorem C7_unknown_category_document_witness :
    decompress_and_parse_ableton_file (.gzipXml noRackTagDoc) = some noRackTagDoc ∧
    parse_chains_and_devices noRackTagDoc (some "unknown_kind.adg") false =
      .ok (RackInfo.mk "unknown_kind" "unknown_kind" [] [] none
        [unknownRackTypeMsg] []) :=
  C7_unknown_category_document noRackTagDoc (some "unknown_kind.adg") false (by decide)

/-! ### Claim C9 -/

/-- Every successful decode derives `rack_name` from the filename alone:
each `.ok` branch of `parse_chains_and_devices` stores
`rack_name_from_file filename`. -/
theorem rack_name_of_ok {t : XML} {fn : Option String} {v : Bool} {r : RackInfo}
    (h : parse_chains_and_devices t fn v = .ok r) :
    r.rack_name = rack_name_from_file fn := by
  simp only [parse_chains_and_devices] at h
  repeat' split at h
  all_goals first
    | exact Except.noConfusion h
    | (injection h with h; subst h; rfl)

/-- Claim C9: the document's name field depends only on the source
filename, never on the parsed content — any two trees decoded (even with
different verbosity) under the same filename yield the same name, namely
the filename's basename with its extension removed (`"Unknown"` when no
filename, or a falsy empty one, is supplied). -/
theorem C9_rack_name_filename_only (t1 t2 : XML) (fn : Option String)
    (v1 v2 : Bool) {r1 r2 : RackInfo}
    (h1 : parse_chains_and_devices t1 fn v1 = .ok r1)
    (h2 : parse_chains_and_devices t2 fn v2 = .ok r2) :
    r1.rack_name = rack_name_from_file fn ∧ r1.rack_name = r2.rack_name := by
  have e1 := rack_name_of_ok h1
  have e2 := rack_name_of_ok h2
  exact ⟨e1, e1.trans e2.symm⟩

/-- Witness for C9: two structurally different documents decoded under
the same filename get the same, filename-derived name. -/
theorem C9_rack_name_filename_only_witness :
    ("My Loop" : String) = rack_name_from_file (some "/racks/My Loop.adg") ∧
    ("My Loop" : String) = "My Loop" :=
  C9_rack_name_filename_only noRackTagDoc emptyRackDoc
    (some "/racks/My Loop.adg") false true rfl rfl

/-! ### Claim C6 -/

/-- Claim C6: for every decoded device, a present non-empty custom user
name becomes `display_name`; otherwise the display name is the static
table resolution of the raw tag (the raw tag verbatim when the tag is
not in the table, via `getD`); `preset_name` is present iff a custom
name was used and it differs case-insensitively from the table
resolution, and it then holds the table-resolved name. -/
theorem C6_device_naming (fuel : Nat) (device_elem : XML) (parent_preset : Option XML)
    {d : Device} (h : parse_device fuel device_elem parent_preset = .ok d) :
    (∀ c, customNameOf device_elem = some c → d.name = c) ∧
    (customNameOf device_elem = none →
      d.name = (deviceTypeMap.lookup device_elem.tag).getD device_elem.tag) ∧
    (∀ pn, d.preset_name = some pn →
      pn = (deviceTypeMap.lookup device_elem.tag).getD device_elem.tag) ∧
    (d.preset_name.isSome ↔ ∃ c, customNameOf device_elem = some c ∧
      pyLower ((deviceTypeMap.lookup device_elem.tag).getD device_elem.tag) ≠ pyLower c) := by
  cases fuel with
  | zero => exact Except.noConfusion h
  | succ f =>
    simp only [parse_device, parseLevel, parse_device_body] at h
    repeat' split at h
    all_goals (try exact Except.noConfusion h)
    all_goals (injection h with h; subst h)
    all_goals (refine ⟨?_, ?_, ?_, ?_⟩ <;> simp_all [Device.name, Device.preset_name])

/-! ### Claim C1 -/

/-- Claim C1 asserts that the device decoder recurses into the sibling
branch-preset collection for every device whose tag is any of the three
container categories.  The code only does so for
`AudioEffectGroupDevice` (and only scans `AudioEffectBranchPreset`
siblings); this theorem evaluates both category cases on structurally
identical inputs: an `InstrumentGroupDevice` inside a chain, whose
enclosing `GroupDevicePreset` carries a non-empty branch-preset
collection, comes back with no nested-chains field at all (`none`),
while the audio-rack analogue comes back with its nested chain
attached.  (The repository's own `test_nested_racks.py` states that
`InstrumentGroupDevice` devices should show nested chains.) -/
theorem C1_nested_chains_audio_only :
    parse_single_chain_branch recursion_limit instChainBranch 0 =
      .ok (Chain.mk "Chain 1" false
        [Device.mk "InstrumentGroupDevice" "Instrument Rack" none true none]) ∧
    parse_single_chain_branch recursion_limit audioChainBranch 0 =
      .ok (Chain.mk "Chain 1" false
        [Device.mk "AudioEffectGroupDevice" "Audio Effect Rack" none true
          (some [Chain.mk "Chain 1" false []])]) :=
  ⟨rfl, rfl⟩

/-! ### Claim C2 -/

/-- Decoding `deepBranchOf n` consumes two interpreter frames per
nesting level (one for `parse_single_chain_branch`, one for
`parse_device`), so any stack budget of at most `2 * n + 1` frames is
exhausted before the bottom is reached and the decode raises
`RecursionError`.  Proven by induction on the depth — level `n + 1`
with budget `fuel + 2` reduces to level `n` with budget `fuel`. -/
theorem deep_chain_error : ∀ (n fuel idx : Nat), fuel ≤ 2 * n + 1 →
    parse_single_chain_branch fuel (deepBranchOf n) idx = .error recursionErrorMsg := by
  intro n
  induction n with
  | zero =>
    intro fuel idx hf
    match fuel, hf with
    | 0, _ => rfl
    | 1, _ => rfl
    | fuel + 2, hf => exact absurd hf (by omega)
  | succ m ih =>
    intro fuel idx hf
    match fuel, hf with
    | 0, _ => rfl
    | 1, _ => rfl
    | fuel + 2, hf =>
      have hih : (parseLevel fuel).1
          (XML.mk "AudioEffectBranchPreset" []
            [XML.mk "DevicePresets" [] [deepPreset m]]) 0 =
          .error recursionErrorMsg :=
        ih fuel 0 (by omega)
      show (parseLevel (fuel + 2)).1 (deepBranchOf (m + 1)) idx = .error recursionErrorMsg
      simp [parseLevel, parse_single_chain_branch_body, parse_device_body,
        parseDevicePresets, parseDeviceChildren, parseBranchList,
        deepBranchOf, deepPreset, findChild, childrenTagged, findChildPath,
        customNameOf, XML.children, XML.tag, XML.get, XML.attrs, hih]

/-- Claim C2 (amended): for a document with a known category and three
branch elements, if decoding the middle chain raises an internal
exception while the other two decode, the walker catches the exception
and records an error diagnostic naming the failing chain's 1-based
index, and the returned document contains only the two unaffected
chains, fully populated — the failing chain is omitted entirely (the
claim's original "all 3 chains, the failing one with an empty device
list" is what fails). -/
theorem C2_failing_chain_dropped (root : XML) (fn : Option String) (v : Bool)
    (rt bpt : String) (md bps b1 b2 b3 : XML) (mcs : List MacroControl)
    (c1 c3 : Chain) (e : String)
    (hdet : detect_rack_type_and_device root = (some rt, some md))
    (hm : parseMacroList md (List.range 16) = .ok mcs)
    (hbps : findDescChildPath root "GroupDevicePreset" "BranchPresets" = some bps)
    (hbt : get_branch_preset_type rt = some bpt)
    (hbr : childrenTagged bps bpt = [b1, b2, b3])
    (h1 : parse_single_chain_branch recursion_limit b1 0 = .ok c1)
    (h2 : parse_single_chain_branch recursion_limit b2 1 = .error e)
    (h3 : parse_single_chain_branch recursion_limit b3 2 = .ok c3) :
    parse_chains_and_devices root fn v =
      .ok (RackInfo.mk (rack_name_from_file fn) (rack_name_from_file fn) mcs
        [c1, c3] (some rt) ["Error parsing chain 2: " ++ e] []) := by
  simp only [parse_chains_and_devices, hdet, hm, hbps, hbt, hbr,
    walkBranches, h1, h2, h3]
  rfl

/-- Witness for the amended C2 at the concrete three-chain document
whose middle chain exhausts the recursion limit. -/
theorem C2_failing_chain_dropped_witness :
    parse_chains_and_devices threeChainDoc (some "big.adg") false =
      .ok (RackInfo.mk "big" "big" []
        [Chain.mk "A" false [], Chain.mk "C" false []]
        (some "AudioEffectGroupDevice")
        ["Error parsing chain 2: " ++ recursionErrorMsg] []) :=
  C2_failing_chain_dropped threeChainDoc (some "big.adg") false
    "AudioEffectGroupDevice" "AudioEffectBranchPreset" threeChainMainDevice
    (XML.mk "BranchPresets" [] [plainBranch "A", deepBranch, plainBranch "C"])
    (plainBranch "A") deepBranch (plainBranch "C") []
    (Chain.mk "A" false []) (Chain.mk "C" false []) recursionErrorMsg
    rfl rfl rfl rfl rfl rfl
    (deep_chain_error 600 recursion_limit 1 (by decide)) rfl

/-- Counterexample to C2 as stated: at the same concrete document —
three branch elements, the middle one failing (its nesting depth, 600,
trips both CPython and the modelled 1000-frame budget) — the returned
document holds 2 chains, not all 3; no empty-device chain stands in
for the failing one. -/
theorem C2_claim_counterexample :
    ((childrenTagged
        (XML.mk "BranchPresets" [] [plainBranch "A", deepBranch, plainBranch "C"])
        "AudioEffectBranchPreset").length = 3) ∧
    (parse_chains_and_devices threeChainDoc (some "big.adg") false).map
        (fun r => (r.chains.length, r.parsing_errors)) =
      .ok (2, ["Error parsing chain 2: " ++ recursionErrorMsg]) := by
  refine ⟨rfl, ?_⟩
  have hdet : detect_rack_type_and_device threeChainDoc =
      (some "AudioEffectGroupDevice", some threeChainMainDevice) := rfl
  have hm : parseMacroList threeChainMainDevice (List.range 16) = .ok [] := rfl
  have hbps : findDescChildPath threeChainDoc "GroupDevicePreset" "BranchPresets" =
      some (XML.mk "BranchPresets" [] [plainBranch "A", deepBranch, plainBranch "C"]) := rfl
  have hbt : get_branch_preset_type "AudioEffectGroupDevice" =
      some "AudioEffectBranchPreset" := rfl
  have hbr : childrenTagged
      (XML.mk "BranchPresets" [] [plainBranch "A", deepBranch, plainBranch "C"])
      "AudioEffectBranchPreset" = [plainBranch "A", deepBranch, plainBranch "C"] := rfl
  have h1 : parse_single_chain_branch recursion_limit (plainBranch "A") 0 =
      .ok (Chain.mk "A" false []) := rfl
  have h2 : parse_single_chain_branch recursion_limit deepBranch 1 =
      .error recursionErrorMsg :=
    deep_chain_error 600 recursion_limit 1 (by decide)
  have h3 : parse_single_chain_branch recursion_limit (plainBranch "C") 2 =
      .ok (Chain.mk "C" false []) := rfl
  simp only [parse_chains_and_devices, hdet, hm, hbps, hbt, hbr,
    walkBranches, h1, h2, h3]
  rfl

/-- Witness for C6 at a concrete renamed Reverb device. -/
theorem C6_device_naming_witness :
    (∀ c, customNameOf namedReverbDev = some c →
      (Device.mk "Reverb" "Big Hall" (some "Reverb") true none).name = c) ∧
    (customNameOf namedReverbDev = none →
      (Device.mk "Reverb" "Big Hall" (some "Reverb") true none).name =
        (deviceTypeMap.lookup namedReverbDev.tag).getD namedReverbDev.tag) ∧
    (∀ pn, (Device.mk "Reverb" "Big Hall" (some "Reverb") true none).preset_name = some pn →
      pn = (deviceTypeMap.lookup namedReverbDev.tag).getD namedReverbDev.tag) ∧
    ((Device.mk "Reverb" "Big Hall" (some "Reverb") true none).preset_name.isSome ↔
      ∃ c, customNameOf namedReverbDev = some c ∧
        pyLower ((deviceTypeMap.lookup namedReverbDev.tag).getD namedReverbDev.tag) ≠ pyLower c) :=
  C6_device_naming 1 namedReverbDev none rfl

/-! ### Claim C3 -/

/-- Claim C3 (amended): for every input byte buffer that is not valid
gzip (or whose decompressed bytes are not well-formed markup), decoding
yields no document — the reader's catch-all handler reports the failure
and hands the caller `None`.  The claim's further assertion that
decompression/malformed-input failures are the *only* failures that
reach the caller is dropped: the macro loop's `float()` conversion can
also raise out of `parse_chains_and_devices`
(`C3_claim_counterexample`). -/
theorem C3_no_document_for_bad_input (fc : FileContents)
    (h : ∀ r, fc ≠ .gzipXml r) :
    decompress_and_parse_ableton_file fc = none := by
  cases fc with
  | notGzip => rfl
  | gzipMalformedXml => rfl
  | gzipXml r => exact absurd rfl (h r)

/-- Witness for the amended C3 at a concrete non-gzip input. -/
theorem C3_no_document_for_bad_input_witness :
    decompress_and_parse_ableton_file .notGzip = none :=
  C3_no_document_for_bad_input .notGzip (fun _ h => FileContents.noConfusion h)

/-- Counterexample to C3 as stated: a decode failure that is neither a
decompression nor a malformed-markup failure propagates to the caller —
a named macro whose stored value string is not a number makes
`parse_chains_and_devices` itself raise (the uncaught `ValueError` of
`float("abc")`). -/
theorem C3_claim_counterexample :
    parse_chains_and_devices badMacroValueDoc (some "bad.adg") false =
      .error ("could not convert string to float: abc") := rfl

/-! ### Claim C4 -/

/-- Claim C4 asserts the "no chain collection found" warning is recorded
regardless of verbosity.  In the code the `append` for that warning sits
inside the `if branch_presets is None and verbose:` guard (unlike the
three sibling diagnostics, which are recorded unconditionally), so with
`verbose=False` the returned document has empty chains and *no*
warning; with `verbose=True` the warning appears.  This theorem
evaluates both runs on a category-detected document with no
`BranchPresets` node anywhere. -/
theorem C4_missing_branchpresets_warning_verbose_only :
    parse_chains_and_devices noBranchPresetsDoc (some "nb.adg") false =
      .ok (RackInfo.mk "nb" "nb" [] [] (some "AudioEffectGroupDevice") [] []) ∧
    parse_chains_and_devices noBranchPresetsDoc (some "nb.adg") true =
      .ok (RackInfo.mk "nb" "nb" [] [] (some "AudioEffectGroupDevice") []
        ["No BranchPresets element found - rack may not contain chains"]) :=
  ⟨rfl, rfl⟩

/-! ### Claim C5 -/

/-- Claim C5 (amended): for a macro index whose display name is present
and differs from the synthesized default, the extractor emits a
MacroControl whose value is `0.0` when the value node is absent; but
when the value node is present and its stored `Value` string (default
`"0"`) is not parsable as a number, the extractor does not emit a
`0.0`-valued control — the `float()` conversion fails and the error
escapes (the claim's "0.0 whenever absent *or unparsable*" is what
fails). -/
theorem C5_macro_value_absent_vs_unparsable (md : XML) (i : Nat) (s : String)
    (hname : macroDisplayName md i = some s)
    (hdflt : s ≠ "Macro " ++ toString (i + 1)) :
    (findChildPath md ("MacroControls." ++ toString i) "Manual" = none →
      parseMacroAt md i = .ok (some (MacroControl.mk s (PyFloat.num 0) i))) ∧
    (∀ mc v, findChildPath md ("MacroControls." ++ toString i) "Manual" = some mc →
      (mc.get "Value").getD "0" = v → pythonFloat v = none →
      parseMacroAt md i = .error ("could not convert string to float: " ++ v)) := by
  constructor
  · intro hnone
    simp only [parseMacroAt, hname, if_pos hdflt, hnone]
  · intro mc v hmc hv hpf
    simp only [parseMacroAt, hname, if_pos hdflt, hmc, hv, hpf]

/-- Witness for the amended C5: on `mixedMacroDevice`, index 1 (named,
no value node) yields a control with value `0.0`; index 2 (named, value
node storing `"xyz"`) makes the extractor fail. -/
theorem C5_macro_value_absent_vs_unparsable_witness :
    parseMacroAt mixedMacroDevice 1 =
      .ok (some (MacroControl.mk "Depth" (PyFloat.num 0) 1)) ∧
    parseMacroAt mixedMacroDevice 2 =
      .error ("could not convert string to float: xyz") :=
  ⟨(C5_macro_value_absent_vs_unparsable mixedMacroDevice 1 "Depth" rfl
      (by decide)).1 rfl,
   (C5_macro_value_absent_vs_unparsable mixedMacroDevice 2 "Rate" rfl
      (by decide)).2 (XML.mk "Manual" [("Value", "xyz")] []) "xyz" rfl rfl rfl⟩

/-- Counterexample to C5 as stated: with macro 2 named `Rate` holding
the unparsable stored value `xyz`, the macro extractor does not emit a
`MacroControl` with value `0.0` — the whole decode fails instead. -/
theorem C5_claim_counterexample :
    parse_chains_and_devices mixedMacroDoc (some "mx.adg") false =
      .error ("could not convert string to float: xyz") := rfl

/-! ### Lemmas about the macro loop (toward claim C8) -/

/-- Exhaustive case shape of one macro-loop iteration: the index is
skipped (absent or default display name), or a control carrying exactly
this index and the non-default display name is emitted, or the `float()`
conversion aborts (which also requires a non-default display name). -/
theorem parseMacroAt_shape (md : XML) (i : Nat) :
    (parseMacroAt md i = .ok none ∧
      (macroDisplayName md i = none ∨
        macroDisplayName md i = some ("Macro " ++ toString (i + 1)))) ∨
    (∃ m : MacroControl, parseMacroAt md i = .ok (some m) ∧ m.index = i ∧
      macroDisplayName md i = some m.name ∧
      m.name ≠ "Macro " ++ toString (i + 1)) ∨
    (∃ e s, parseMacroAt md i = .error e ∧ macroDisplayName md i = some s ∧
      s ≠ "Macro " ++ toString (i + 1)) := by
  cases hn : macroDisplayName md i with
  | none => exact Or.inl ⟨by simp [parseMacroAt, hn], Or.inl rfl⟩
  | some s =>
    by_cases hd : s = "Macro " ++ toString (i + 1)
    · subst hd
      exact Or.inl ⟨by simp [parseMacroAt, hn], Or.inr rfl⟩
    · cases hf : findChildPath md ("MacroControls." ++ toString i) "Manual" with
      | none =>
        exact Or.inr (Or.inl ⟨MacroControl.mk s (PyFloat.num 0) i,
          by simp [parseMacroAt, hn, hf, hd], rfl, rfl, hd⟩)
      | some mc =>
        cases hv : pythonFloat ((mc.get "Value").getD "0") with
        | some v =>
          exact Or.inr (Or.inl ⟨MacroControl.mk s v i,
            by simp [parseMacroAt, hn, hf, hv, hd], rfl, rfl, hd⟩)
        | none =>
          exact Or.inr (Or.inr ⟨"could not convert string to float: " ++
              (mc.get "Value").getD "0", s,
            by simp [parseMacroAt, hn, hf, hv, hd], rfl, hd⟩)

/-- A macro control emitted at index `i` carries index `i`, the in-file
display name, and a non-default name. -/
theorem parseMacroAt_some_fields {md : XML} {i : Nat} {m : MacroControl}
    (h : parseMacroAt md i = .ok (some m)) :
    m.index = i ∧ macroDisplayName md i = some m.name ∧
    m.name ≠ "Macro " ++ toString (i + 1) := by
  rcases parseMacroAt_shape md i with ⟨h0, _⟩ | ⟨m', h1, hrest⟩ | ⟨e, s, h2, _⟩
  · rw [h] at h0; exact Option.noConfusion (Except.ok.inj h0)
  · rw [h] at h1
    obtain rfl : m' = m := Option.some.inj (Except.ok.inj h1).symm
    exact hrest
  · rw [h] at h2; exact Except.noConfusion h2

/-- An absent or default-named display name is skipped. -/
theorem parseMacroAt_skips {md : XML} {i : Nat}
    (h : macroDisplayName md i = none ∨
      macroDisplayName md i = some ("Macro " ++ toString (i + 1))) :
    parseMacroAt md i = .ok none := by
  rcases h with h | h <;> simp [parseMacroAt, h]

/-- A present, non-default display name that does not abort the decode
emits a control. -/
theorem parseMacroAt_named {md : XML} {i : Nat} {s : String}
    {o : Option MacroControl} (hname : macroDisplayName md i = some s)
    (hd : s ≠ "Macro " ++ toString (i + 1))
    (h : parseMacroAt md i = .ok o) : ∃ m, o = some m := by
  rcases parseMacroAt_shape md i with ⟨_, hn | hn⟩ | ⟨m', h1, _⟩ | ⟨e, s', h2, _⟩
  · rw [hname] at hn; exact Option.noConfusion hn
  · rw [hname] at hn
    exact absurd (Option.some.inj hn) hd
  · rw [h] at h1
    exact ⟨m', Except.ok.inj h1⟩
  · rw [h] at h2; exact Except.noConfusion h2

/-- The emitted indices form a sublist of the visited index list. -/
theorem parseMacroList_sublist {md : XML} :
    ∀ {is : List Nat} {mcs : List MacroControl},
      parseMacroList md is = .ok mcs →
      (mcs.map MacroControl.index).Sublist is := by
  intro is
  induction is with
  | nil =>
    intro mcs h
    injection h with h
    subst h
    simp
  | cons i is ih =>
    intro mcs h
    unfold parseMacroList at h
    cases hm : parseMacroAt md i with
    | error e => rw [hm] at h; exact Except.noConfusion h
    | ok o =>
      rw [hm] at h
      cases o with
      | none => exact (ih h).cons i
      | some m =>
        cases hrest : parseMacroList md is with
        | error e => rw [hrest] at h; exact Except.noConfusion h
        | ok ms =>
          rw [hrest] at h
          injection h with h
          subst h
          have hidx := (parseMacroAt_some_fields hm).1
          simp only [List.map_cons, hidx]
          exact (ih hrest).cons₂ i

/-- Every emitted control originates from its own index's loop
iteration, and that index was visited. -/
theorem parseMacroList_mem {md : XML} :
    ∀ {is : List Nat} {mcs : List MacroControl} {m : MacroControl},
      parseMacroList md is = .ok mcs → m ∈ mcs →
      parseMacroAt md m.index = .ok (some m) ∧ m.index ∈ is := by
  intro is
  induction is with
  | nil =>
    intro mcs m h hm
    injection h with h
    subst h
    exact absurd hm (List.not_mem_nil m)
  | cons i is ih =>
    intro mcs m h hm
    unfold parseMacroList at h
    cases hma : parseMacroAt md i with
    | error e => rw [hma] at h; exact Except.noConfusion h
    | ok o =>
      rw [hma] at h
      cases o with
      | none =>
        have := ih h hm
        exact ⟨this.1, List.mem_cons_of_mem i this.2⟩
      | some m' =>
        cases hrest : parseMacroList md is with
        | error e => rw [hrest] at h; exact Except.noConfusion h
        | ok ms =>
          rw [hrest] at h
          injection h with h
          subst h
          rcases List.mem_cons.mp hm with rfl | hm'
          · have hidx := (parseMacroAt_some_fields hma).1
            rw [hidx]
            exact ⟨hma, List.mem_cons_self i is⟩
          · have := ih hrest hm'
            exact ⟨this.1, List.mem_cons_of_mem i this.2⟩

/-- Every visited index produced a (non-aborting) iteration result, and
an emitted control lands in the output. -/
theorem parseMacroList_at {md : XML} :
    ∀ {is : List Nat} {mcs : List MacroControl} {i : Nat},
      parseMacroList md is = .ok mcs → i ∈ is →
      ∃ o, parseMacroAt md i = .ok o ∧ ∀ m, o = some m → m ∈ mcs := by
  intro is
  induction is with
  | nil =>
    intro mcs i _ hi
    exact absurd hi (List.not_mem_nil i)
  | cons j is ih =>
    intro mcs i h hi
    unfold parseMacroList at h
    cases hma : parseMacroAt md j with
    | error e => rw [hma] at h; exact Except.noConfusion h
    | ok o =>
      rw [hma] at h
      rcases List.mem_cons.mp hi with rfl | hi'
      · cases o with
        | none =>
          exact ⟨none, hma, fun m hm => Option.noConfusion hm⟩
        | some m' =>
          cases hrest : parseMacroList md is with
          | error e => rw [hrest] at h; exact Except.noConfusion h
          | ok ms =>
            rw [hrest] at h
            injection h with h
            subst h
            exact ⟨some m', hma, fun m hm => by
              obtain rfl : m' = m := Option.some.inj hm
              exact List.mem_cons_self _ _⟩
      · cases o with
        | none =>
          have := ih h hi'
          exact this
        | some m' =>
          cases hrest : parseMacroList md is with
          | error e => rw [hrest] at h; exact Except.noConfusion h
          | ok ms =>
            rw [hrest] at h
            injection h with h
            subst h
            rcases ih hrest hi' with ⟨o, ho, hmem⟩
            exact ⟨o, ho, fun m hm => List.mem_cons_of_mem m' (hmem m hm)⟩

/-- Shape of the macro controls of a successful decode: either the
detector failed (one of its two results is `None`) and the list is
empty, or the main device's sixteen-index macro loop produced it. -/
theorem parse_macro_shape {root : XML} {fn : Option String} {v : Bool}
    {r : RackInfo} (h : parse_chains_and_devices root fn v = .ok r) :
    (((detect_rack_type_and_device root).1 = none ∨
        (detect_rack_type_and_device root).2 = none) ∧ r.macro_controls = []) ∨
    (∃ rt md, detect_rack_type_and_device root = (some rt, some md) ∧
      parseMacroList md (List.range 16) = .ok r.macro_controls) := by
  rcases hdet : detect_rack_type_and_device root with ⟨c1, c2⟩
  cases c1 with
  | none =>
    simp only [parse_chains_and_devices, hdet] at h
    injection h with h
    subst h
    exact Or.inl ⟨Or.inl rfl, rfl⟩
  | some rt =>
    cases c2 with
    | none =>
      simp only [parse_chains_and_devices, hdet] at h
      injection h with h
      subst h
      exact Or.inl ⟨Or.inr rfl, rfl⟩
    | some md =>
      simp only [parse_chains_and_devices, hdet] at h
      refine Or.inr ⟨rt, md, rfl, ?_⟩
      cases hm : parseMacroList md (List.range 16) with
      | error e => rw [hm] at h; exact Except.noConfusion h
      | ok mcs =>
        rw [hm] at h
        repeat' split at h
        all_goals simp_all
        all_goals (subst h; rfl)

/-! ### Claim C8 -/

/-- Claim C8: in every returned document, a macro index whose in-file
display name equals the synthesized default `"Macro {i+1}"` is absent
from `macro_controls`; every other index with a present display name
appears exactly once; and all emitted indices are unique and within
0..15. -/
theorem C8_macro_control_invariants (root : XML) (fn : Option String) (v : Bool)
    {r : RackInfo} (h : parse_chains_and_devices root fn v = .ok r) :
    ((r.macro_controls.map MacroControl.index).Nodup) ∧
    (∀ m ∈ r.macro_controls, m.index < 16) ∧
    (∀ rt md, detect_rack_type_and_device root = (some rt, some md) →
      (∀ i s, macroDisplayName md i = some s → s = "Macro " ++ toString (i + 1) →
        ∀ m ∈ r.macro_controls, m.index ≠ i) ∧
      (∀ i s, i < 16 → macroDisplayName md i = some s →
        s ≠ "Macro " ++ toString (i + 1) →
        r.macro_controls.countP (fun m => m.index == i) = 1)) := by
  rcases parse_macro_shape h with ⟨hd, hempty⟩ | ⟨rt, md, hdet, hml⟩
  · rw [hempty]
    refine ⟨by simp, by simp, ?_⟩
    intro rt md hdet'
    rcases hd with h1 | h1 <;> rw [hdet'] at h1 <;> exact Option.noConfusion h1
  · have hnd : (r.macro_controls.map MacroControl.index).Nodup :=
      (parseMacroList_sublist hml).nodup (List.nodup_range 16)
    refine ⟨hnd, ?_, ?_⟩
    · intro m hm
      exact List.mem_range.mp (parseMacroList_mem hml hm).2
    · intro rt' md' hdet'
      rw [hdet] at hdet'
      obtain ⟨hrt, hmd⟩ := Prod.mk.inj hdet'
      obtain rfl : md = md' := Option.some.inj hmd
      constructor
      · intro i s hname hs m hm hidx
        have horigin := (parseMacroList_mem hml hm).1
        rw [hidx] at horigin
        have hskip := @parseMacroAt_skips md i (Or.inr (hs ▸ hname))
        rw [hskip] at horigin
        exact Option.noConfusion (Except.ok.inj horigin)
      · intro i s hi hname hd'
        obtain ⟨o, ho, hin⟩ := parseMacroList_at hml (List.mem_range.mpr hi)
        obtain ⟨m, rfl⟩ := parseMacroAt_named hname hd' ho
        have hm : m ∈ r.macro_controls := hin m rfl
        have hidx : m.index = i := (parseMacroAt_some_fields ho).1
        have hmem : i ∈ r.macro_controls.map MacroControl.index :=
          List.mem_map.mpr ⟨m, hm, hidx⟩
        have hcount : (r.macro_controls.map MacroControl.index).count i = 1 :=
          List.count_eq_one_of_mem hnd hmem
        have hconv : (r.macro_controls.map MacroControl.index).count i =
            r.macro_controls.countP (fun m' => m'.index == i) := by
          simp only [List.count, List.countP_map]
          rfl
        rw [← hconv]
        exact hcount

/-- Witness for C8 at `macroSampleDoc`: index 0 is default-named (and
absent), index 1 is named with a stored value, index 3 named with no
value node. -/
theorem C8_macro_control_invariants_witness :
    ((macroSampleResult.macro_controls.map MacroControl.index).Nodup) ∧
    (∀ m ∈ macroSampleResult.macro_controls, m.index < 16) ∧
    (∀ rt md, detect_rack_type_and_device macroSampleDoc = (some rt, some md) →
      (∀ i s, macroDisplayName md i = some s → s = "Macro " ++ toString (i + 1) →
        ∀ m ∈ macroSampleResult.macro_controls, m.index ≠ i) ∧
      (∀ i s, i < 16 → macroDisplayName md i = some s →
        s ≠ "Macro " ++ toString (i + 1) →
        macroSampleResult.macro_controls.countP (fun m => m.index == i) = 1)) :=
  C8_macro_control_invariants macroSampleDoc (some "macros.adg") false (by rfl)
